import Mathlib

/-!
Shallow embedding of the MySQLMate resilience layer (src/index.js, the
current version of the class: shutdown gating, operation tracking, retry
loop, metrics, transactions, migrations, multi-query).

Modelling conventions:
* JavaScript numbers that only ever hold counts are `Nat`; `avgQueryTime`
  is `ℚ` (durations are integer milliseconds and the running mean only
  divides by 2, which is exact in both ℚ and IEEE doubles at these sizes).
* A thrown JS `Error` is a `JsError` (optional `code`, `message`).
* The mutable instance state (`isShuttingDown`, `activeOperations`,
  `metrics`) is threaded explicitly as `MateState`.  The operation ids
  (`query-${Date.now()}-${Math.random()}` strings in the source) are
  modelled as fresh naturals drawn from a counter.
* The pool is an external capability: each call takes oracles describing
  what the pool would answer (per-attempt results for `pool.execute`,
  outcomes for acquire/begin/commit/rollback), and pool interactions are
  recorded in a trace so "before any pool interaction" is statable.
-/

deriving instance DecidableEq for Except

namespace MySQLMate

/-- A thrown JavaScript error: optional `code` plus `message`. -/
structure JsError where
  code : Option String
  message : String
deriving DecidableEq

/-- `retryableErrors` from the constructor's `retryConfig`. -/
def retryableErrors : List String :=
  ["ECONNRESET", "PROTOCOL_CONNECTION_LOST", "ETIMEDOUT"]

/-- JS `s.includes(sub)`: `sub` occurs as a contiguous substring of `s`. -/
def strIncludes (s sub : String) : Bool :=
  s.toList.tails.any fun t => sub.toList.isPrefixOf t

/-- The retry classification from `query` (src/index.js:257-259):
`error.code === code || error.message.includes(code)` over
`retryConfig.retryableErrors`. -/
def isRetryable (e : JsError) : Bool :=
  retryableErrors.any fun c => e.code == some c || strIncludes e.message c

/-- The `metrics` object initialised in the constructor. -/
structure Metrics where
  totalQueries : Nat
  failedQueries : Nat
  avgQueryTime : ℚ
  activeConnections : Int
  totalConnections : Nat
deriving DecidableEq

/-- Initial metrics (all zero), as in the constructor. -/
def initMetrics : Metrics :=
  { totalQueries := 0, failedQueries := 0, avgQueryTime := 0,
    activeConnections := 0, totalConnections := 0 }

/-- `_updateMetrics(duration)` (src/index.js:296-302): if the running
average is 0 it is set to the duration, otherwise it becomes
`(avgQueryTime + duration) / 2`. -/
def _updateMetrics (m : Metrics) (duration : ℚ) : Metrics :=
  if m.avgQueryTime = 0 then { m with avgQueryTime := duration }
  else { m with avgQueryTime := (m.avgQueryTime + duration) / 2 }

/-- The retry loop of `query` (src/index.js:233-290), for one logical call.
`op k` is what `pool.execute` would do on attempt `k` (0-indexed), `dur k`
the measured duration of that attempt.  `remaining` is `maxRetries -
attempt`; the loop body increments `totalQueries`, runs the attempt, and
on failure increments `failedQueries` and rethrows unless the error is
retryable, `skipRetry` is unset and attempts remain.  Returns the final
metrics, the number of attempts made so far (`attempt + 1` of the last
attempt) and the outcome. -/
def queryLoop {α : Type} (skipRetry : Bool) (op : Nat → Except JsError α)
    (dur : Nat → ℚ) : Nat → Nat → Metrics → Metrics × Nat × Except JsError α
  | attempt, remaining, m =>
    let m1 : Metrics := { m with totalQueries := m.totalQueries + 1 }
    match op attempt with
    | Except.ok r => (_updateMetrics m1 (dur attempt), attempt + 1, Except.ok r)
    | Except.error e =>
      let m2 : Metrics := { m1 with failedQueries := m1.failedQueries + 1 }
      match remaining with
      | 0 => (m2, attempt + 1, Except.error e)
      | r + 1 =>
        if skipRetry || !(isRetryable e) then (m2, attempt + 1, Except.error e)
        else queryLoop skipRetry op dur (attempt + 1) r m2

/-- A JavaScript value, as far as `_validateQuery` ever inspects one:
enough to decide `typeof v === 'string'`, truthiness and `Array.isArray`. -/
inductive JsValue where
  | vNull
  | vUndefined
  | vBool (b : Bool)
  | vNum (n : ℚ)
  | vStr (s : String)
  | vArr (xs : List Nat)
  | vObj
deriving DecidableEq

/-- JS truthiness of a `JsValue` (`NaN` is not modelled). -/
def truthy : JsValue → Bool
  | JsValue.vNull => false
  | JsValue.vUndefined => false
  | JsValue.vBool b => b
  | JsValue.vNum n => if n = 0 then false else true
  | JsValue.vStr s => if s = "" then false else true
  | JsValue.vArr _ => true
  | JsValue.vObj => true

/-- `Array.isArray`. -/
def isArray : JsValue → Bool
  | JsValue.vArr _ => true
  | _ => false

/-- The character class `\s` of JavaScript regular expressions (also the
set trimmed by `String.prototype.trim`): ASCII whitespace, NBSP, the
Unicode space separators, line/paragraph separators and the BOM. -/
def isJsWs (c : Char) : Bool :=
  let n := c.toNat
  n == 9 || n == 10 || n == 11 || n == 12 || n == 13 || n == 32 ||
  n == 160 || n == 5760 || (8192 ≤ n && n ≤ 8202) || n == 8232 ||
  n == 8233 || n == 8239 || n == 8287 || n == 12288 || n == 65279

/-- `sql.trim().length === 0`: every character is JS whitespace. -/
def trimmedEmpty (s : String) : Bool :=
  s.toList.all isJsWs

/-- Case-insensitive literal match (the `/i` flag on ASCII letters):
consumes `kw` (given lower-case) from the front of `l` and returns the
rest, or `none`. -/
def matchCI : List Char → List Char → Option (List Char)
  | [], l => some l
  | _ :: _, [] => none
  | k :: ks, c :: cs => if c.toLower == k then matchCI ks cs else none

/-- Match of `;\s*(drop|delete|truncate|alter)\s+` (with `/i`) starting at
the head of `l`.  Because none of the keywords starts with a whitespace
character, the greedy `\s*`/`\s+` are equivalent to "skip all whitespace"
resp. "next character is whitespace". -/
def pat1At (l : List Char) : Bool :=
  match l with
  | ';' :: rest =>
    let r := rest.dropWhile isJsWs
    ["drop", "delete", "truncate", "alter"].any fun kw =>
      match matchCI kw.toList r with
      | some r2 =>
        match r2 with
        | c :: _ => isJsWs c
        | [] => false
      | none => false
  | _ => false

/-- Match of `union\s+select` (with `/i`) starting at the head of `l`. -/
def pat2At (l : List Char) : Bool :=
  match matchCI "union".toList l with
  | some r =>
    match r with
    | c :: _ => isJsWs c && (matchCI "select".toList (r.dropWhile isJsWs)).isSome
    | [] => false
  | none => false

/-- `regex.test(s)`: the pattern matches starting at some position. -/
def testAt (p : List Char → Bool) (s : String) : Bool :=
  s.toList.tails.any p

/-- The `dangerousPatterns` denylist of `_validateQuery`
(src/index.js:202-209): `;\s*(drop|delete|truncate|alter)\s+` (/i),
`union\s+select` (/i), an inline `--`, a block-comment opener. -/
def dangerous (s : String) : Bool :=
  testAt pat1At s || testAt pat2At s || strIncludes s "--" || strIncludes s "/*"

/-- `_validateQuery(sql, params)` (src/index.js:192-212).  Checks run in
source order: `sql` must be a string that is non-empty after trimming;
`params`, when truthy, must be an array; `sql` must match no dangerous
pattern.  Returns the thrown error's message on failure. -/
def _validateQuery (sql params : JsValue) : Except String Unit :=
  match sql with
  | JsValue.vStr s =>
    if trimmedEmpty s then Except.error "SQL query must be a non-empty string"
    else if truthy params && !(isArray params) then
      Except.error "Query parameters must be an array"
    else if dangerous s then Except.error "Potentially dangerous SQL query detected"
    else Except.ok ()
  | _ => Except.error "SQL query must be a non-empty string"

/-- An error surfaced to the caller of a public method: the
shutting-down fast-fail, a validation error, or an error from the
pool/driver (possibly after retries). -/
inductive CallError where
  | shuttingDown (msg : String)
  | validation (msg : String)
  | js (e : JsError)
deriving DecidableEq

/-- The mutable per-instance state threaded through every call:
`isShuttingDown`, the `activeOperations` set (operation ids as naturals,
`nextOpId` generating fresh ones) and `metrics`. -/
structure MateState where
  isShuttingDown : Bool
  activeOperations : List Nat
  nextOpId : Nat
  metrics : Metrics
deriving DecidableEq

/-- A fresh instance right after the constructor ran. -/
def initState : MateState :=
  { isShuttingDown := false, activeOperations := [], nextOpId := 0,
    metrics := initMetrics }

/-- `query(sql, params, options)` (src/index.js:215-294) as one logical
call: fail fast when shutting down; validate; add a fresh operation id;
run the retry loop; in a `finally`, delete the id.  Returns the new
state, the number of attempts made, and the outcome. -/
def query {α : Type} (st : MateState) (sql params : JsValue) (maxRetries : Nat)
    (skipRetry : Bool) (op : Nat → Except JsError α) (dur : Nat → ℚ) :
    MateState × Nat × Except CallError α :=
  if st.isShuttingDown then
    (st, 0, Except.error (CallError.shuttingDown
      "Database is shutting down, cannot execute new queries"))
  else
    match _validateQuery sql params with
    | Except.error msg => (st, 0, Except.error (CallError.validation msg))
    | Except.ok _ =>
      let opId := st.nextOpId
      let st1 : MateState :=
        { st with nextOpId := opId + 1,
                  activeOperations := opId :: st.activeOperations }
      let r := queryLoop skipRetry op dur 0 maxRetries st1.metrics
      let st2 : MateState :=
        { st1 with metrics := r.1,
                   activeOperations := st1.activeOperations.erase opId }
      (st2, r.2.1, (r.2.2).mapError CallError.js)

/-- Connection-level pool interactions, recorded in a trace.
`acquired` marks `pool.getConnection()` being invoked. -/
inductive TxEvent where
  | acquired
  | began
  | committed
  | rolledBack
  | rollbackFailed
  | released
deriving DecidableEq

/-- Oracle for one `transaction` call: what the pool and the
caller-supplied callback would answer at each step. -/
structure TxEnv (α : Type) where
  acquire : Except JsError Unit
  beginTx : Except JsError Unit
  work : Except JsError α
  commit : Except JsError Unit
  rollback : Except JsError Unit

/-- The `try` block of `transaction` (src/index.js:516-522):
`beginTransaction`, the callback, `commit`. -/
def txTry {α : Type} (env : TxEnv α) : List TxEvent × Except JsError α :=
  match env.beginTx with
  | Except.error e => ([], Except.error e)
  | Except.ok _ =>
    match env.work with
    | Except.error e => ([TxEvent.began], Except.error e)
    | Except.ok r =>
      match env.commit with
      | Except.error e => ([TxEvent.began], Except.error e)
      | Except.ok _ => ([TxEvent.began, TxEvent.committed], Except.ok r)

/-- The `catch` block of `transaction` (src/index.js:523-529): `await
connection.rollback()` and rethrow `error`.  The rollback call is not
guarded, so a rejected rollback replaces the original error. -/
def txCatch {α : Type} (env : TxEnv α) (e : JsError) :
    List TxEvent × Except JsError α :=
  match env.rollback with
  | Except.ok _ => ([TxEvent.rolledBack], Except.error e)
  | Except.error re => ([TxEvent.rollbackFailed], Except.error re)

/-- The try/catch/finally of `transaction` after the connection was
acquired; the `finally` releases the connection on every path. -/
def txAfterAcquire {α : Type} (env : TxEnv α) : List TxEvent × Except JsError α :=
  let t := txTry env
  match t.2 with
  | Except.ok v => (t.1 ++ [TxEvent.released], Except.ok v)
  | Except.error e =>
    let c := txCatch env e
    (t.1 ++ c.1 ++ [TxEvent.released], c.2)

/-- `transaction(callback)` (src/index.js:506-535): fail fast when
shutting down; add a fresh operation id; `await this.getConnection()`
(outside the try/finally!); then the bracketed begin/work/commit with
rollback on failure, release and operation-id removal in the `finally`.
Returns the new state, the trace of pool interactions, and the
outcome. -/
def transaction {α : Type} (st : MateState) (env : TxEnv α) :
    MateState × List TxEvent × Except CallError α :=
  if st.isShuttingDown then
    (st, [], Except.error (CallError.shuttingDown
      "Database is shutting down, cannot execute new transactions"))
  else
    let opId := st.nextOpId
    let st1 : MateState :=
      { st with nextOpId := opId + 1,
                activeOperations := opId :: st.activeOperations }
    match env.acquire with
    | Except.error e => (st1, [TxEvent.acquired], Except.error (CallError.js e))
    | Except.ok _ =>
      let r := txAfterAcquire env
      let st2 : MateState :=
        { st1 with activeOperations := st1.activeOperations.erase opId }
      (st2, TxEvent.acquired :: r.1, (r.2).mapError CallError.js)

/-- `getConnection()` (src/index.js:487-503): fail fast when shutting
down, otherwise invoke `pool.getConnection()` and pass its result or
error through. -/
def getConnection (st : MateState) (acquire : Except JsError Unit) :
    List TxEvent × Except CallError Unit :=
  if st.isShuttingDown then
    ([], Except.error (CallError.shuttingDown
      "Database is shutting down, cannot obtain new connections"))
  else
    match acquire with
    | Except.ok _ => ([TxEvent.acquired], Except.ok ())
    | Except.error e => ([TxEvent.acquired], Except.error (CallError.js e))

/-- `gracefulShutdown(timeout)` (src/index.js:443-469) as it acts on the
instance state: a no-op when already shutting down, otherwise it sets
`isShuttingDown` (never reset) and then drains and closes the pool,
which touches no other modelled state. -/
def gracefulShutdown (st : MateState) : MateState :=
  if st.isShuttingDown then st else { st with isShuttingDown := true }

/-- One entry of a `multiQuery` batch: the `{sql, params}` pair plus the
pool's per-attempt answers for the inner `query` call. -/
structure QueryItem (α : Type) where
  sql : JsValue
  params : JsValue
  op : Nat → Except JsError α
  dur : Nat → ℚ

/-- The `for (const [index, queryData] of queries.entries())` loop of
`multiQuery` (src/index.js:367-375): run each query through `this.query`
in order, collecting `{index, result}` successes and `{index, error}`
failures.  Also returns the indices in execution order. -/
def multiQueryLoop {α : Type} (maxRetries : Nat) :
    List (Nat × QueryItem α) → MateState →
    MateState × List Nat × List (Nat × α) × List (Nat × CallError)
  | [], st => (st, [], [], [])
  | (i, q) :: rest, st =>
    let r := query st q.sql q.params maxRetries false q.op q.dur
    let tail := multiQueryLoop maxRetries rest r.1
    match r.2.2 with
    | Except.ok v => (tail.1, i :: tail.2.1, (i, v) :: tail.2.2.1, tail.2.2.2)
    | Except.error e => (tail.1, i :: tail.2.1, tail.2.2.1, (i, e) :: tail.2.2.2)

/-- The aggregate failure thrown by `multiQuery`, carrying the successes
and the per-index failures; or the shutting-down fast-fail. -/
inductive MultiErr (α : Type) where
  | shuttingDown (msg : String)
  | aggregate (message : String) (results : List (Nat × α))
      (errors : List (Nat × CallError))

/-- `multiQuery(queries)` (src/index.js:351-395): fail fast when shutting
down; add a fresh operation id; run the batch strictly in order; remove
the id in the `finally`; throw the aggregate error if any sub-query
failed, otherwise return the collected results.  (The input is typed as
a list, so the `Array.isArray(queries)` guard cannot fire.)  Returns the
new state, the indices in execution order and the outcome. -/
def multiQuery {α : Type} (st : MateState) (maxRetries : Nat)
    (items : List (QueryItem α)) :
    MateState × List Nat × Except (MultiErr α) (List (Nat × α)) :=
  if st.isShuttingDown then
    (st, [], Except.error (MultiErr.shuttingDown
      "Database is shutting down, cannot execute new queries"))
  else
    let opId := st.nextOpId
    let st1 : MateState :=
      { st with nextOpId := opId + 1,
                activeOperations := opId :: st.activeOperations }
    let r := multiQueryLoop maxRetries items.enum st1
    let st2 : MateState :=
      { r.1 with activeOperations := (r.1).activeOperations.erase opId }
    let errors := r.2.2.2
    if errors.length > 0 then
      (st2, r.2.1, Except.error (MultiErr.aggregate
        (toString errors.length ++ " of " ++ toString items.length ++ " queries failed")
        r.2.2.1 errors))
    else
      (st2, r.2.1, Except.ok r.2.2.1)

/-- The `migrations` ledger table: the `name` column of its rows, in
insertion order. -/
structure Ledger where
  names : List String
deriving DecidableEq

/-- The unit of work `runMigration` passes to `transaction`
(src/index.js:403-439), with every `connection.execute` succeeding:
ensure the ledger table exists (no effect on its rows), hash the SQL
text into `migrationName`, return `{executed: false}` if the ledger
already has that name, otherwise run the migration SQL and insert the
ledger row.  `hash` models `crypto.createHash('md5')...digest('hex')` as
an uninterpreted function of the SQL text. -/
def migrationWork (hash : String → String) (led : Ledger) (sql : String) :
    Ledger × Bool × String :=
  let migrationName := hash sql
  let existing := led.names.filter fun n => n == migrationName
  if existing.length > 0 then (led, false, migrationName)
  else ({ names := led.names ++ [migrationName] }, true, migrationName)

/-- `runMigration(migrationSql)` (src/index.js:398-440): fail fast when
shutting down, otherwise run `migrationWork` inside a `transaction`;
this models the path where acquire/begin/commit succeed (the transaction
bracket itself is verified separately via `transaction`), so the work's
ledger effects are committed.  Returns the new state, the new ledger and
`{executed, migrationName}`. -/
def runMigration (st : MateState) (hash : String → String) (led : Ledger)
    (sql : String) : MateState × Ledger × Except CallError (Bool × String) :=
  if st.isShuttingDown then
    (st, led, Except.error (CallError.shuttingDown
      "Database is shutting down, cannot execute migrations"))
  else
    let opId := st.nextOpId
    let st1 : MateState :=
      { st with nextOpId := opId + 1,
                activeOperations := opId :: st.activeOperations }
    let w := migrationWork hash led sql
    let st2 : MateState :=
      { st1 with activeOperations := st1.activeOperations.erase opId }
    (st2, w.1, Except.ok (w.2.1, w.2.2))

/-- The outcome of one `query` call on a running (non-shutting-down)
instance: it depends only on the query's own data, not on the instance
state (see `query_snd_snd_of_not_shuttingDown`). -/
def itemOutcome {α : Type} (maxRetries : Nat) (q : QueryItem α) : Except CallError α :=
  match _validateQuery q.sql q.params with
  | Except.error msg => Except.error (CallError.validation msg)
  | Except.ok _ =>
    ((queryLoop false q.op q.dur 0 maxRetries initMetrics).2.2).mapError CallError.js

/-- The `{index, result}` successes a `multiQuery` batch produces, in
original index order. -/
def mqSuccesses {α : Type} (maxRetries : Nat) (items : List (QueryItem α)) :
    List (Nat × α) :=
  items.enum.filterMap fun p =>
    match itemOutcome maxRetries p.2 with
    | Except.ok v => some (p.1, v)
    | Except.error _ => none

/-- The `{index, error}` failures a `multiQuery` batch produces, in
original index order. -/
def mqFailures {α : Type} (maxRetries : Nat) (items : List (QueryItem α)) :
    List (Nat × CallError) :=
  items.enum.filterMap fun p =>
    match itemOutcome maxRetries p.2 with
    | Except.error e => some (p.1, e)
    | Except.ok _ => none

/-- Pool oracle failing retryably on attempt 0 and succeeding on attempt 1. -/
def opFailThenOk : Nat → Except JsError Nat :=
  fun n => if n = 0 then Except.error ⟨some "ECONNRESET", "boom"⟩ else Except.ok 42

/-- Transaction oracle: acquiring the connection itself fails. -/
def envAcquireFails : TxEnv Nat :=
  { acquire := Except.error ⟨none, "pool exhausted"⟩, beginTx := Except.ok (),
    work := Except.ok 7, commit := Except.ok (), rollback := Except.ok () }

/-- Transaction oracle: the unit of work fails and the rollback fails too. -/
def envRollbackFails : TxEnv Nat :=
  { acquire := Except.ok (), beginTx := Except.ok (),
    work := Except.error ⟨none, "work failed"⟩, commit := Except.ok (),
    rollback := Except.error ⟨none, "rollback failed"⟩ }

/-- Transaction oracle: the unit of work fails, the rollback succeeds. -/
def envWorkFails : TxEnv Nat :=
  { acquire := Except.ok (), beginTx := Except.ok (),
    work := Except.error ⟨none, "work failed"⟩, commit := Except.ok (),
    rollback := Except.ok () }

/-- A two-query batch whose queries both succeed. -/
def twoOkItems : List (QueryItem Nat) :=
  [ { sql := JsValue.vStr "SELECT 1", params := JsValue.vArr [],
      op := fun _ => Except.ok 1, dur := fun _ => 1 },
    { sql := JsValue.vStr "SELECT 2", params := JsValue.vArr [],
      op := fun _ => Except.ok 2, dur := fun _ => 1 } ]

/-! ## Helper lemmas -/

theorem updateMetrics_totalQueries (m : Metrics) (d : ℚ) :
    (_updateMetrics m d).totalQueries = m.totalQueries := by
  unfold _updateMetrics
  split <;> rfl

/-- The retry loop increments `totalQueries` exactly once per attempt:
the gain in `totalQueries` equals the number of attempts made. -/
theorem queryLoop_totalQueries {α : Type} (sr : Bool) (op : Nat → Except JsError α)
    (dur : Nat → ℚ) :
    ∀ (remaining attempt : Nat) (m : Metrics),
      (queryLoop sr op dur attempt remaining m).1.totalQueries + attempt
        = m.totalQueries + (queryLoop sr op dur attempt remaining m).2.1 := by
  intro remaining
  induction remaining with
  | zero =>
    intro attempt m
    rw [queryLoop]
    cases hop : op attempt with
    | ok r => simp [updateMetrics_totalQueries]; omega
    | error e => simp; omega
  | succ r ih =>
    intro attempt m
    rw [queryLoop]
    cases hop : op attempt with
    | ok v => simp [updateMetrics_totalQueries]; omega
    | error e =>
      by_cases hc : (sr || !(isRetryable e)) = true
      · simp [hc]; omega
      · simp only [Bool.not_eq_true] at hc
        simp only [hc, if_false]
        have := ih (attempt + 1)
          { m with totalQueries := m.totalQueries + 1,
                   failedQueries := m.failedQueries + 1 }
        simp at this ⊢
        omega

/-- The attempts made and the outcome of the retry loop do not depend on
the metrics it starts from. -/
theorem queryLoop_snd_indep {α : Type} (sr : Bool) (op : Nat → Except JsError α)
    (dur : Nat → ℚ) :
    ∀ (remaining attempt : Nat) (m m' : Metrics),
      (queryLoop sr op dur attempt remaining m).2
        = (queryLoop sr op dur attempt remaining m').2 := by
  intro remaining
  induction remaining with
  | zero =>
    intro attempt m m'
    rw [queryLoop, queryLoop]
    cases op attempt <;> simp
  | succ r ih =>
    intro attempt m m'
    rw [queryLoop, queryLoop]
    cases op attempt with
    | ok v => simp
    | error e =>
      by_cases hc : (sr || !(isRetryable e)) = true
      · simp [hc]
      · simp only [Bool.not_eq_true] at hc
        simp only [hc, if_false]
        exact ih (attempt + 1) _ _

/-- When every attempt fails with a retryable error (and `skipRetry` is
off), the loop runs through all its attempts and ends with the last
attempt's result. -/
theorem queryLoop_allFail {α : Type} (op : Nat → Except JsError α) (dur : Nat → ℚ)
    (H : ∀ k, ∃ e, op k = Except.error e ∧ isRetryable e = true) :
    ∀ (remaining attempt : Nat) (m : Metrics),
      (queryLoop false op dur attempt remaining m).2
        = (attempt + remaining + 1, op (attempt + remaining)) := by
  intro remaining
  induction remaining with
  | zero =>
    intro attempt m
    obtain ⟨e, he, _⟩ := H attempt
    rw [queryLoop]
    simp [he]
  | succ r ih =>
    intro attempt m
    obtain ⟨e, he, hr⟩ := H attempt
    rw [queryLoop]
    simp only [he, hr, Bool.false_or, Bool.not_true]
    rw [if_neg Bool.false_ne_true, ih (attempt + 1)]
    have h1 : attempt + 1 + r = attempt + (r + 1) := by omega
    rw [h1]

/-- A falsy `params` value never trips the array-shape check. -/
theorem validate_falsy (sql p : JsValue) (h : truthy p = false) :
    _validateQuery sql p ≠ Except.error "Query parameters must be an array" := by
  unfold _validateQuery
  cases sql <;> simp [h]
  split
  · simp
  · split <;> simp

/-- `query` never changes `isShuttingDown`. -/
theorem query_shuttingDown_invariant {α : Type} (st : MateState)
    (sql params : JsValue) (mr : Nat) (sr : Bool) (op : Nat → Except JsError α)
    (dur : Nat → ℚ) :
    (query st sql params mr sr op dur).1.isShuttingDown = st.isShuttingDown := by
  unfold query
  split
  · rfl
  · split <;> rfl

/-- On a running instance, the outcome of `query` is `itemOutcome`: it
does not depend on the instance state. -/
theorem query_snd_snd_of_not_shuttingDown {α : Type} (st : MateState) (mr : Nat)
    (q : QueryItem α) (h : st.isShuttingDown = false) :
    (query st q.sql q.params mr false q.op q.dur).2.2 = itemOutcome mr q := by
  unfold query itemOutcome
  simp only [h, Bool.false_eq_true, if_false]
  cases _validateQuery q.sql q.params with
  | error msg => simp
  | ok u =>
    simp only
    have := queryLoop_snd_indep false q.op q.dur mr 0 st.metrics initMetrics
    rw [congrArg Prod.snd this]

/-- Characterisation of the `multiQuery` batch loop on a running
instance: the final state is still running, the queries execute in the
given order, and the successes/failures are the order-preserving
projections of the per-item outcomes. -/
theorem multiQueryLoop_spec {α : Type} (mr : Nat) (pairs : List (Nat × QueryItem α)) :
    ∀ (st : MateState), st.isShuttingDown = false →
      (multiQueryLoop mr pairs st).1.isShuttingDown = false ∧
      (multiQueryLoop mr pairs st).2.1 = pairs.map Prod.fst ∧
      (multiQueryLoop mr pairs st).2.2.1 = pairs.filterMap
        (fun p => match itemOutcome mr p.2 with
          | Except.ok v => some (p.1, v)
          | Except.error _ => none) ∧
      (multiQueryLoop mr pairs st).2.2.2 = pairs.filterMap
        (fun p => match itemOutcome mr p.2 with
          | Except.error e => some (p.1, e)
          | Except.ok _ => none) := by
  induction pairs with
  | nil =>
    intro st h
    rw [multiQueryLoop]
    simp [h]
  | cons p rest ih =>
    obtain ⟨i, q⟩ := p
    intro st h
    rw [multiQueryLoop]
    have hflag : (query st q.sql q.params mr false q.op q.dur).1.isShuttingDown = false := by
      rw [query_shuttingDown_invariant, h]
    obtain ⟨ih1, ih2, ih3, ih4⟩ := ih _ hflag
    have hq := query_snd_snd_of_not_shuttingDown st mr q h
    cases ho : itemOutcome mr q with
    | ok v =>
      have hmain : (query st q.sql q.params mr false q.op q.dur).2.2 = Except.ok v :=
        hq.trans (by rw [ho])
      simp only [hmain]
      exact ⟨ih1, by simp [ih2], by simp [List.filterMap_cons, ho, ih3],
        by simp [List.filterMap_cons, ho, ih4]⟩
    | error e =>
      have hmain : (query st q.sql q.params mr false q.op q.dur).2.2 = Except.error e :=
        hq.trans (by rw [ho])
      simp only [hmain]
      exact ⟨ih1, by simp [ih2], by simp [List.filterMap_cons, ho, ih3],
        by simp [List.filterMap_cons, ho, ih4]⟩

/-- Filtering index-tagged pairs through an index-preserving partial map
keeps the index list a sublist of the original. -/
theorem filterMap_fst_sublist {β γ : Type} (f : Nat × β → Option (Nat × γ))
    (hf : ∀ p q, f p = some q → q.1 = p.1) :
    ∀ pairs : List (Nat × β),
      ((pairs.filterMap f).map Prod.fst).Sublist (pairs.map Prod.fst) := by
  intro pairs
  induction pairs with
  | nil => simp
  | cons p rest ih =>
    cases hfp : f p with
    | none =>
      simp only [List.filterMap_cons, hfp, List.map_cons]
      exact ih.cons p.1
    | some q =>
      simp only [List.filterMap_cons, hfp, List.map_cons]
      rw [hf p q hfp]
      exact ih.cons₂ p.1

/-- The indices of the successes of a batch are strictly increasing. -/
theorem mqSuccesses_fst_pairwise {α : Type} (mr : Nat) (items : List (QueryItem α)) :
    ((mqSuccesses mr items).map Prod.fst).Pairwise (· < ·) := by
  have hf : ∀ (p : Nat × QueryItem α) (q : Nat × α),
      (match itemOutcome mr p.2 with
        | Except.ok v => some (p.1, v)
        | Except.error _ => none) = some q → q.1 = p.1 := by
    intro p q hpq
    cases ho : itemOutcome mr p.2 <;> simp [ho] at hpq
    exact (congrArg Prod.fst hpq).symm
  have hs := filterMap_fst_sublist _ hf items.enum
  rw [List.enum_map_fst] at hs
  exact (List.pairwise_lt_range items.length).sublist hs

/-- The indices of the failures of a batch are strictly increasing. -/
theorem mqFailures_fst_pairwise {α : Type} (mr : Nat) (items : List (QueryItem α)) :
    ((mqFailures mr items).map Prod.fst).Pairwise (· < ·) := by
  have hf : ∀ (p : Nat × QueryItem α) (q : Nat × CallError),
      (match itemOutcome mr p.2 with
        | Except.error e => some (p.1, e)
        | Except.ok _ => none) = some q → q.1 = p.1 := by
    intro p q hpq
    cases ho : itemOutcome mr p.2 <;> simp [ho] at hpq
    exact (congrArg Prod.fst hpq).symm
  have hs := filterMap_fst_sublist _ hf items.enum
  rw [List.enum_map_fst] at hs
  exact (List.pairwise_lt_range items.length).sublist hs

/-- A pool/driver error surfaced by the retry loop is never the
parameter-validation error. -/
theorem mapError_js_ne_validation {α : Type} (z : Except JsError α) (msg : String) :
    z.mapError CallError.js ≠ Except.error (CallError.validation msg) := by
  cases z <;> simp [Except.mapError]

/-! ## Claim theorems -/

/-- C1 (counterexample): `totalQueries` is not incremented once per
logical call.  A single `query` call with `maxRetries = 1` whose first
attempt fails retryably and whose second succeeds increments
`totalQueries` by 2, not 1. -/
theorem C1_counterexample :
    (query initState (JsValue.vStr "SELECT 1") (JsValue.vArr []) 1 false
        opFailThenOk (fun _ => 5)).1.metrics.totalQueries
      = initState.metrics.totalQueries + 2 ∧
    (query initState (JsValue.vStr "SELECT 1") (JsValue.vArr []) 1 false
        opFailThenOk (fun _ => 5)).1.metrics.totalQueries
      ≠ initState.metrics.totalQueries + 1 := by
  decide

/-- C1 (amended): `totalQueries` is incremented exactly once per
attempt: any `query` call increases `totalQueries` by exactly the number
of attempts it made (so by `k`, not 1, for a call that retried `k - 1`
times). -/
theorem C1_totalQueries_per_attempt {α : Type} (st : MateState)
    (sql params : JsValue) (mr : Nat) (sr : Bool) (op : Nat → Except JsError α)
    (dur : Nat → ℚ) :
    (query st sql params mr sr op dur).1.metrics.totalQueries
      = st.metrics.totalQueries + (query st sql params mr sr op dur).2.1 := by
  unfold query
  split
  · simp
  · split
    · simp
    · simp only
      have h := queryLoop_totalQueries sr op dur mr 0 st.metrics
      omega

/-- C3 (code bug): `transaction` adds an in-flight operation record and
then acquires the connection outside its try/finally, so when
`pool.getConnection()` rejects the call fails with the pool's error but
the record is never removed: starting from a fresh instance, the
active-operation set still holds the record after the call has failed. -/
theorem C3_transaction_leaks_record :
    (transaction initState envAcquireFails).1.activeOperations = [0] ∧
    (transaction initState envAcquireFails).2.2
      = Except.error (CallError.js ⟨none, "pool exhausted"⟩) ∧
    initState.activeOperations = [] := by
  decide

/-- C6 (counterexample): the two-point folding formula is not applied to
the first sample.  With `avgQueryTime = 0`, a successful attempt of
duration 10 sets the average to 10, while `(prevAvg + d) / 2` would
give 5. -/
theorem C6_counterexample :
    (query initState (JsValue.vStr "SELECT 1") (JsValue.vArr []) 0 false
        (fun _ => Except.ok 1) (fun _ => (10 : ℚ))).1.metrics.avgQueryTime = 10 ∧
    (initState.metrics.avgQueryTime + 10) / 2 = 5 ∧ (10 : ℚ) ≠ 5 := by
  refine ⟨by decide, by norm_num [initState, initMetrics], by norm_num⟩

/-- C6 (amended): after a successful query attempt of duration `d`, the
running average becomes `(prevAvg + d) / 2` when the previous average is
non-zero; when the previous average is 0 (in particular on the first
sample) it is set to `d` instead. -/
theorem C6_avg_update {α : Type} (sr : Bool) (op : Nat → Except JsError α)
    (dur : Nat → ℚ) (attempt remaining : Nat) (m : Metrics) (v : α)
    (hop : op attempt = Except.ok v) :
    (queryLoop sr op dur attempt remaining m).1.avgQueryTime
      = if m.avgQueryTime = 0 then dur attempt
        else (m.avgQueryTime + dur attempt) / 2 := by
  rw [queryLoop]
  simp only [hop]
  unfold _updateMetrics
  split <;> simp_all

/-- Witness for C6: with a previous average of 4 and a successful attempt
of duration 10, the new average is `(4 + 10) / 2 = 7`. -/
theorem C6_avg_update_witness :
    (queryLoop false (fun _ => Except.ok 1) (fun _ => (10 : ℚ)) 0 0
        { initMetrics with avgQueryTime := 4 }).1.avgQueryTime = 7 := by
  have h := C6_avg_update false (fun _ => Except.ok 1) (fun _ => (10 : ℚ)) 0 0
    { initMetrics with avgQueryTime := 4 } 1 rfl
  rw [h]
  norm_num

/-- C7: once `gracefulShutdown` has resolved, `isShuttingDown` is true
and every subsequent `query`, `multiQuery`, `transaction`,
`getConnection` and `runMigration` call fails with its shutting-down
error before any pool interaction: the state, ledger and trace are
untouched and zero attempts are made. -/
theorem C7_shutdown_gates_everything {α : Type} (st : MateState)
    (sql params : JsValue) (mr : Nat) (sr : Bool) (op : Nat → Except JsError α)
    (dur : Nat → ℚ) (env : TxEnv α) (items : List (QueryItem α))
    (acq : Except JsError Unit) (hash : String → String) (led : Ledger)
    (msql : String) :
    (gracefulShutdown st).isShuttingDown = true ∧
    query (gracefulShutdown st) sql params mr sr op dur
      = (gracefulShutdown st, 0, Except.error (CallError.shuttingDown
          "Database is shutting down, cannot execute new queries")) ∧
    multiQuery (gracefulShutdown st) mr items
      = (gracefulShutdown st, [], Except.error (MultiErr.shuttingDown
          "Database is shutting down, cannot execute new queries")) ∧
    transaction (gracefulShutdown st) env
      = (gracefulShutdown st, [], Except.error (CallError.shuttingDown
          "Database is shutting down, cannot execute new transactions")) ∧
    getConnection (gracefulShutdown st) acq
      = ([], Except.error (CallError.shuttingDown
          "Database is shutting down, cannot obtain new connections")) ∧
    runMigration (gracefulShutdown st) hash led msql
      = (gracefulShutdown st, led, Except.error (CallError.shuttingDown
          "Database is shutting down, cannot execute migrations")) := by
  have hsd : (gracefulShutdown st).isShuttingDown = true := by
    unfold gracefulShutdown
    split
    · assumption
    · rfl
  exact ⟨hsd, by simp [query, hsd], by simp [multiQuery, hsd],
    by simp [transaction, hsd], by simp [getConnection, hsd],
    by simp [runMigration, hsd]⟩

/-- C10: the parameter-shape check runs only when `params` is truthy: a
`query` call whose `params` is falsy (0, '', false, null, undefined)
never fails with the "Query parameters must be an array" validation
error. -/
theorem C10_falsy_params_not_rejected {α : Type} (st : MateState)
    (sql p : JsValue) (mr : Nat) (sr : Bool) (op : Nat → Except JsError α)
    (dur : Nat → ℚ) (h : truthy p = false) :
    (query st sql p mr sr op dur).2.2
      ≠ Except.error (CallError.validation "Query parameters must be an array") := by
  unfold query
  split
  · simp
  · cases hv : _validateQuery sql p with
    | error msg =>
      simp only [hv]
      intro hc
      simp only [Except.error.injEq, CallError.validation.injEq] at hc
      exact validate_falsy sql p h (hc ▸ hv)
    | ok u =>
      simp only [hv]
      exact mapError_js_ne_validation _ _

/-- Witness for C10: `params = 0` is falsy and a concrete call with it
does not produce the array-shape validation error. -/
theorem C10_witness :
    truthy (JsValue.vNum 0) = false ∧
    (query initState (JsValue.vStr "SELECT 1") (JsValue.vNum 0) 0 false
        (fun _ => Except.ok 1) (fun _ => (1 : ℚ))).2.2
      ≠ Except.error (CallError.validation "Query parameters must be an array") :=
  ⟨by decide, C10_falsy_params_not_rejected initState (JsValue.vStr "SELECT 1")
    (JsValue.vNum 0) 0 false (fun _ => Except.ok 1) (fun _ => (1 : ℚ)) (by decide)⟩

/-- Pool oracle failing every attempt with the same retryable error. -/
def opAlwaysFail : Nat → Except JsError Nat :=
  fun _ => Except.error ⟨some "ECONNRESET", "boom"⟩

/-- Pool oracle failing the first attempt with a non-retryable error. -/
def opDupKey : Nat → Except JsError Nat :=
  fun _ => Except.error ⟨some "ER_DUP_ENTRY", "dup"⟩

/-- C4: with `maxRetries = n`, a query whose every attempt fails with a
retryable error makes exactly `n + 1` attempts and throws the last
attempt's error. -/
theorem C4_retry_exhaustion {α : Type} (st : MateState) (sql params : JsValue)
    (n : Nat) (op : Nat → Except JsError α) (dur : Nat → ℚ) (e : Nat → JsError)
    (hsd : st.isShuttingDown = false)
    (hv : _validateQuery sql params = Except.ok ())
    (hop : ∀ k, op k = Except.error (e k))
    (hr : ∀ k, isRetryable (e k) = true) :
    (query st sql params n false op dur).2.1 = n + 1 ∧
    (query st sql params n false op dur).2.2
      = Except.error (CallError.js (e n)) := by
  unfold query
  simp only [hsd, Bool.false_eq_true, if_false, hv]
  have h := queryLoop_allFail op dur (fun k => ⟨e k, hop k, hr k⟩) n 0 st.metrics
  simp only [Nat.zero_add] at h
  have h1 : (queryLoop false op dur 0 n st.metrics).2.1 = n + 1 := by rw [h]
  have h2 : (queryLoop false op dur 0 n st.metrics).2.2 = Except.error (e n) := by
    rw [h]
    exact hop n
  exact ⟨h1, by simp [h2, Except.mapError]⟩

/-- Witness for C4: with `maxRetries = 2` and every attempt failing with
`ECONNRESET`, a call makes 3 attempts and throws that error. -/
theorem C4_witness :
    initState.isShuttingDown = false ∧
    (query initState (JsValue.vStr "SELECT 1") (JsValue.vArr []) 2 false
        opAlwaysFail (fun _ => 1)).2.1 = 3 ∧
    (query initState (JsValue.vStr "SELECT 1") (JsValue.vArr []) 2 false
        opAlwaysFail (fun _ => 1)).2.2
      = Except.error (CallError.js ⟨some "ECONNRESET", "boom"⟩) := by
  have hr : isRetryable ⟨some "ECONNRESET", "boom"⟩ = true := by decide
  have h := C4_retry_exhaustion initState (JsValue.vStr "SELECT 1")
    (JsValue.vArr []) 2 opAlwaysFail (fun _ => 1)
    (fun _ => ⟨some "ECONNRESET", "boom"⟩) rfl (by decide)
    (fun _ => rfl) (fun _ => hr)
  exact ⟨rfl, h.1, h.2⟩

/-- C5: a query whose first attempt fails with a non-retryable error
(or with `skipRetry` requested) makes exactly one attempt and that error
propagates, regardless of `maxRetries`. -/
theorem C5_single_attempt {α : Type} (st : MateState) (sql params : JsValue)
    (mr : Nat) (sr : Bool) (op : Nat → Except JsError α) (dur : Nat → ℚ)
    (e : JsError) (hsd : st.isShuttingDown = false)
    (hv : _validateQuery sql params = Except.ok ())
    (hop : op 0 = Except.error e)
    (hnr : isRetryable e = false ∨ sr = true) :
    (query st sql params mr sr op dur).2.1 = 1 ∧
    (query st sql params mr sr op dur).2.2
      = Except.error (CallError.js e) := by
  unfold query
  simp only [hsd, Bool.false_eq_true, if_false, hv]
  have hcond : (sr || !(isRetryable e)) = true := by
    rcases hnr with h | h <;> simp [h]
  have h : (queryLoop sr op dur 0 mr st.metrics).2 = (1, Except.error e) := by
    rw [queryLoop]
    simp only [hop]
    cases mr with
    | zero => simp
    | succ r => simp [hcond]
  have h1 : (queryLoop sr op dur 0 mr st.metrics).2.1 = 1 := by rw [h]
  have h2 : (queryLoop sr op dur 0 mr st.metrics).2.2 = Except.error e := by rw [h]
  exact ⟨h1, by simp [h2, Except.mapError]⟩

/-- Witness for C5: a duplicate-key error is not retryable, so even with
`maxRetries = 5` a single attempt is made and the error propagates. -/
theorem C5_witness :
    isRetryable ⟨some "ER_DUP_ENTRY", "dup"⟩ = false ∧
    (query initState (JsValue.vStr "SELECT 1") (JsValue.vArr []) 5 false
        opDupKey (fun _ => 1)).2.1 = 1 ∧
    (query initState (JsValue.vStr "SELECT 1") (JsValue.vArr []) 5 false
        opDupKey (fun _ => 1)).2.2
      = Except.error (CallError.js ⟨some "ER_DUP_ENTRY", "dup"⟩) := by
  have h := C5_single_attempt initState (JsValue.vStr "SELECT 1")
    (JsValue.vArr []) 5 false opDupKey (fun _ => 1)
    ⟨some "ER_DUP_ENTRY", "dup"⟩ rfl (by decide) rfl (Or.inl (by decide))
  exact ⟨by decide, h.1, h.2⟩

/-- C2 (counterexample): a rollback failure is not merely logged — it
replaces the original error.  With a unit of work failing with "work
failed" and a rollback rejecting with "rollback failed", the caller
receives the rollback's error, not the original one. -/
theorem C2_counterexample :
    (transaction initState envRollbackFails).2.2
      = Except.error (CallError.js ⟨none, "rollback failed"⟩) ∧
    (transaction initState envRollbackFails).2.2
      ≠ Except.error (CallError.js ⟨none, "work failed"⟩) := by
  decide

/-- C2 (amended): when the unit of work or the commit fails with error
`E`, a rollback is attempted exactly once; if the rollback succeeds the
original error `E` propagates, but if the rollback itself fails, the
rollback's error propagates instead of `E`.  The connection is released
exactly once and the operation record is removed regardless of
outcome. -/
theorem C2_rollback_on_failure {α : Type} (st : MateState) (env : TxEnv α)
    (E : JsError) (hsd : st.isShuttingDown = false)
    (hacq : env.acquire = Except.ok ())
    (hbeg : env.beginTx = Except.ok ())
    (hfail : env.work = Except.error E ∨
      (∃ v, env.work = Except.ok v ∧ env.commit = Except.error E)) :
    ((env.rollback = Except.ok () →
        (transaction st env).2.2 = Except.error (CallError.js E)) ∧
      (∀ re, env.rollback = Except.error re →
        (transaction st env).2.2 = Except.error (CallError.js re))) ∧
    (transaction st env).2.1.count TxEvent.rolledBack
      + (transaction st env).2.1.count TxEvent.rollbackFailed = 1 ∧
    (transaction st env).2.1.count TxEvent.released = 1 ∧
    (transaction st env).1.activeOperations = st.activeOperations := by
  unfold transaction txAfterAcquire txTry txCatch
  simp only [hsd, Bool.false_eq_true, if_false, hacq, hbeg]
  rcases hfail with hw | ⟨v, hw, hc⟩ <;>
    cases hrb : env.rollback <;>
    simp_all [List.count_cons, List.count_append, List.erase_cons_head,
      Except.mapError]

/-- Witness for C2: work fails, rollback succeeds — the original error
propagates and the connection is released once. -/
theorem C2_witness :
    (transaction initState envWorkFails).2.2
      = Except.error (CallError.js ⟨none, "work failed"⟩) ∧
    (transaction initState envWorkFails).2.1.count TxEvent.released = 1 ∧
    (transaction initState envWorkFails).1.activeOperations
      = initState.activeOperations := by
  have h := C2_rollback_on_failure initState envWorkFails ⟨none, "work failed"⟩
    rfl rfl rfl (Or.inl rfl)
  exact ⟨h.1.1 rfl, h.2.2.1, h.2.2.2⟩

/-- C9: running a migration whose content hash is not yet in the ledger
executes it (`{executed: true}`); running the same SQL again is a no-op
(`{executed: false}`), and the ledger then holds exactly one row with
that hash. -/
theorem C9_migration_runs_once (st : MateState) (hash : String → String)
    (led : Ledger) (sql : String) (hsd : st.isShuttingDown = false)
    (hfresh : led.names.count (hash sql) = 0) :
    (runMigration st hash led sql).2.2 = Except.ok (true, hash sql) ∧
    (runMigration (runMigration st hash led sql).1 hash
        (runMigration st hash led sql).2.1 sql).2.2
      = Except.ok (false, hash sql) ∧
    ((runMigration (runMigration st hash led sql).1 hash
        (runMigration st hash led sql).2.1 sql).2.1).names.count (hash sql)
      = 1 := by
  have hnm : hash sql ∉ led.names := List.count_eq_zero.mp hfresh
  have hfilter : led.names.filter (fun n => n == hash sql) = [] := by
    rw [List.filter_eq_nil_iff]
    intro n hn
    simp only [beq_iff_eq]
    intro h
    exact hnm (h ▸ hn)
  unfold runMigration migrationWork
  simp only [hsd, Bool.false_eq_true, if_false]
  simp [hfilter, List.filter_append, List.count_append, hfresh]

/-- Witness for C9: a concrete migration on an empty ledger runs once,
is skipped the second time, and leaves one ledger row. -/
theorem C9_witness :
    (runMigration initState (fun s => s) ⟨[]⟩ "CREATE TABLE t (id INT)").2.2
      = Except.ok (true, "CREATE TABLE t (id INT)") ∧
    (runMigration (runMigration initState (fun s => s) ⟨[]⟩
          "CREATE TABLE t (id INT)").1 (fun s => s)
        (runMigration initState (fun s => s) ⟨[]⟩
          "CREATE TABLE t (id INT)").2.1 "CREATE TABLE t (id INT)").2.2
      = Except.ok (false, "CREATE TABLE t (id INT)") ∧
    ((runMigration (runMigration initState (fun s => s) ⟨[]⟩
          "CREATE TABLE t (id INT)").1 (fun s => s)
        (runMigration initState (fun s => s) ⟨[]⟩
          "CREATE TABLE t (id INT)").2.1 "CREATE TABLE t (id INT)").2.1).names.count
      "CREATE TABLE t (id INT)" = 1 := by
  have h := C9_migration_runs_once initState (fun s => s) ⟨[]⟩
    "CREATE TABLE t (id INT)" rfl (by decide)
  exact h

/-- C8: on a running instance, `multiQuery` executes the batch strictly
in the given order; if every query succeeds the result is the
`{index, result}` list, and if any fails the call fails with the
aggregate error carrying both the successes and the per-index failures;
both lists are in strictly ascending index order. -/
theorem C8_multiQuery_ordered {α : Type} (st : MateState) (mr : Nat)
    (items : List (QueryItem α)) (hsd : st.isShuttingDown = false) :
    (multiQuery st mr items).2.1 = List.range items.length ∧
    (mqFailures mr items = [] →
      (multiQuery st mr items).2.2 = Except.ok (mqSuccesses mr items)) ∧
    (mqFailures mr items ≠ [] →
      (multiQuery st mr items).2.2 = Except.error (MultiErr.aggregate
        (toString (mqFailures mr items).length ++ " of "
          ++ toString items.length ++ " queries failed")
        (mqSuccesses mr items) (mqFailures mr items))) ∧
    ((mqSuccesses mr items).map Prod.fst).Pairwise (· < ·) ∧
    ((mqFailures mr items).map Prod.fst).Pairwise (· < ·) := by
  unfold multiQuery
  rw [if_neg (by simp [hsd])]
  simp only []
  set L := multiQueryLoop mr items.enum
    { st with nextOpId := st.nextOpId + 1,
              activeOperations := st.nextOpId :: st.activeOperations } with hL
  have hst1 : ({ st with nextOpId := st.nextOpId + 1,
                         activeOperations := st.nextOpId :: st.activeOperations }
      : MateState).isShuttingDown = false := hsd
  obtain ⟨l1, l2, l3, l4⟩ := multiQueryLoop_spec mr items.enum _ hst1
  rw [← hL] at l2 l3 l4
  have l3' : L.2.2.1 = mqSuccesses mr items := l3
  have l4' : L.2.2.2 = mqFailures mr items := l4
  refine ⟨?_, ?_, ?_, mqSuccesses_fst_pairwise mr items,
    mqFailures_fst_pairwise mr items⟩
  · by_cases hc : 0 < L.2.2.2.length
    · rw [if_pos hc]
      simp only [l2, List.enum_map_fst]
    · rw [if_neg hc]
      simp only [l2, List.enum_map_fst]
  · intro h0
    have hc : ¬ 0 < L.2.2.2.length := by
      rw [l4', h0]
      simp
    rw [if_neg hc]
    simp [l3']
  · intro h0
    have hc : 0 < L.2.2.2.length := by
      rw [l4']
      exact List.length_pos.mpr h0
    rw [if_pos hc]
    simp [l3', l4']

/-- Witness for C8: a two-query batch with both succeeding returns the
two results tagged with indices 0 and 1, in that order. -/
theorem C8_witness :
    initState.isShuttingDown = false ∧
    (multiQuery initState 3 twoOkItems).2.1 = List.range twoOkItems.length ∧
    (multiQuery initState 3 twoOkItems).2.2
      = Except.ok (mqSuccesses 3 twoOkItems) := by
  have h := C8_multiQuery_ordered initState 3 twoOkItems rfl
  exact ⟨rfl, h.1, h.2.1 (by decide)⟩

end MySQLMate
